import Mathlib

/-!
Verification of `src/pip_exec/src/main.c` (repository `iamwrm/patch_util`).

The program is a single `main` that writes a fixed greeting line, a count
line, and one echo line per argument to standard output, then returns 0.
We embed it shallowly: standard output is the string written so far, each
`printf` call appends to it, and the indexed `for` loop over
`0 <= i < argc` becomes a fold over `List.range argv.length`.
-/

/-- A `printf` call to standard output: appends the rendered text `s` to the
stream contents `out` accumulated so far. -/
def printfStr (out : String) (s : String) : String := out ++ s

/-- Shallow embedding of `main` from `src/pip_exec/src/main.c`.
`argv` is the argument sequence (its length plays the role of `argc`).
Returns the final standard-output contents and the return value of `main`
(the process exit status). The three `printf` statements and the
`for (int i = 0; i < argc; ++i)` loop are rendered in order; `%d` renders
the count in decimal and `%s` inserts the argument text verbatim. -/
def cMain (argv : List String) : String × Int :=
  let out0 := printfStr "" "Hello from C executable!\n"
  let out1 := printfStr out0 ("Received " ++ toString argv.length ++ " arguments:\n")
  let out2 := (List.range argv.length).foldl
    (fun acc i => printfStr acc ("  argv[" ++ toString i ++ "]: " ++ argv.getD i "" ++ "\n")) out1
  (out2, 0)

/-- The full standard-output text produced by a run of the program. -/
def mainStdout (argv : List String) : String := (cMain argv).1

/-- The process exit status of a run of the program. -/
def mainExit (argv : List String) : Int := (cMain argv).2

/-- Concatenation of a list of strings, used to relate the flat output
text to its decomposition into lines. -/
def joinAll : List String → String
  | [] => ""
  | a :: t => a ++ joinAll t

/-- The i-th echo line (without its terminating newline). -/
def echoLine (i : Nat) (v : String) : String := "  argv[" ++ toString i ++ "]: " ++ v

/-- The output of the program decomposed as a list of lines (each without
its terminating newline): the greeting line, the count line, then one echo
line per argument. -/
def outLines (argv : List String) : List String :=
  "Hello from C executable!" ::
  ("Received " ++ toString argv.length ++ " arguments:") ::
  (List.range argv.length).map (fun i => echoLine i (argv.getD i ""))

theorem foldl_append_string (f : Nat → String) (l : List Nat) (out : String) :
    l.foldl (fun acc i => acc ++ f i) out = out ++ joinAll (l.map f) := by
  induction l generalizing out with
  | nil => simp [joinAll]
  | cons a t ih =>
      simp only [List.foldl_cons, List.map_cons, joinAll, ih, String.append_assoc]

/-- Bridge between the operational run and the line decomposition: the
standard output of a run is exactly the lines of `outLines`, each
terminated by a newline, concatenated in order. -/
theorem mainStdout_eq_joinAll (argv : List String) :
    mainStdout argv = joinAll ((outLines argv).map (fun l => l ++ "\n")) := by
  show (cMain argv).1 = _
  unfold cMain outLines
  simp only [printfStr, foldl_append_string, echoLine, joinAll, List.map_cons, List.map_map,
    Function.comp_def, String.append_assoc, String.empty_append]
  rfl

/-- C1: for every argument sequence the program writes to standard output, in
this exact order: the fixed greeting line "Hello from C executable!", then the
count line "Received N arguments:" where N is the total count of arguments
including the invocation name, then one echo line per argument; every line is
newline-terminated and each echo line uses two leading spaces before
"argv[i]: ". -/
theorem C1_output_order_and_format (argv : List String) :
    mainStdout argv =
      "Hello from C executable!\n" ++
      (("Received " ++ toString argv.length ++ " arguments:\n") ++
        joinAll ((List.range argv.length).map
          (fun i => "  argv[" ++ toString i ++ "]: " ++ argv.getD i "" ++ "\n"))) := by
  rw [mainStdout_eq_joinAll]
  simp only [outLines, echoLine, joinAll, List.map_cons, List.map_map, Function.comp_def,
    String.append_assoc]
  rfl

/-- C2: for every argument sequence and every position i within it, the i-th
echo line (the line at position i + 2 of the output) carries the index i and
its trailing text is exactly the original argument value, unmodified; the
output text is these lines, newline-terminated, in order. -/
theorem C2_echo_line_faithful (argv : List String) (i : Nat) (h : i < argv.length) :
    (outLines argv).getD (i + 2) "" = "  argv[" ++ toString i ++ "]: " ++ argv.getD i "" ∧
    mainStdout argv = joinAll ((outLines argv).map (fun l => l ++ "\n")) := by
  refine ⟨?_, mainStdout_eq_joinAll argv⟩
  have hlen : i < ((List.range argv.length).map
      (fun j => echoLine j (argv.getD j ""))).length := by
    simpa using h
  simp only [outLines, List.getD_cons_succ]
  rw [List.getD_eq_getElem _ _ hlen, List.getElem_map, List.getElem_range]
  rfl

/-- C3: for every argument sequence of length N with N >= 1, the complete
output consists of exactly N + 2 lines — the greeting line and the count line
followed by N echo lines — and the output text is their newline-terminated
concatenation. -/
theorem C3_line_count (argv : List String) (h : 1 ≤ argv.length) :
    (outLines argv).length = argv.length + 2 ∧
    ((outLines argv).drop 2).length = argv.length ∧
    mainStdout argv = joinAll ((outLines argv).map (fun l => l ++ "\n")) := by
  refine ⟨?_, ?_, mainStdout_eq_joinAll argv⟩ <;> simp [outLines]

/-- C4: for every argument sequence, the number reported in the count line
(line 1 of the output) equals the number of echo lines that follow it. -/
theorem C4_count_matches_echo_count (argv : List String) :
    (outLines argv).getD 1 "" =
      "Received " ++ toString (((outLines argv).drop 2).length) ++ " arguments:" := by
  simp [outLines]

/-- C5: for every argument sequence, including the one containing only the
invocation name, the process exit status is 0; no input leads to a non-zero
exit status. -/
theorem C5_exit_status_zero (argv : List String) : mainExit argv = 0 := rfl

/-- C6: invoked with an argument sequence of length 1 (only the program
name), the output has exactly 3 lines: the greeting line, the count line
"Received 1 arguments:", and one echo line "  argv[0]: <program-name>". -/
theorem C6_single_argument (name : String) :
    outLines [name] =
      ["Hello from C executable!", "Received 1 arguments:", "  argv[0]: " ++ name] ∧
    (outLines [name]).length = 3 ∧
    mainStdout [name] = joinAll ((outLines [name]).map (fun l => l ++ "\n")) := by
  have h1 : ([name] : List String).length = 1 := rfl
  refine ⟨?_, ?_, mainStdout_eq_joinAll [name]⟩
  · unfold outLines
    rw [h1]
    rfl
  · simp [outLines]

/-- C7: invoked with the argument sequence ["prog", "a", "", "hello world"],
the count line reads "Received 4 arguments:" and is followed by exactly four
echo lines whose values are "prog", "a", the empty string and "hello world",
preserving the empty string and the embedded space exactly. -/
theorem C7_mixed_arguments :
    outLines ["prog", "a", "", "hello world"] =
      ["Hello from C executable!", "Received 4 arguments:",
       "  argv[0]: prog", "  argv[1]: a", "  argv[2]: ", "  argv[3]: hello world"] ∧
    mainStdout ["prog", "a", "", "hello world"] =
      "Hello from C executable!\nReceived 4 arguments:\n  argv[0]: prog\n  argv[1]: a\n  argv[2]: \n  argv[3]: hello world\n" :=
  ⟨rfl, rfl⟩

/-- C8: the program is deterministic: any two runs supplied with the same
argument sequence produce the same standard-output text and the same exit
status; the output depends only on the argument sequence. -/
theorem C8_deterministic (argv1 argv2 : List String) (h : argv1 = argv2) :
    mainStdout argv1 = mainStdout argv2 ∧ mainExit argv1 = mainExit argv2 := by
  subst h; exact ⟨rfl, rfl⟩

/-- C9: the program defines no error path: for every argument sequence,
including sequences containing empty strings or unusual characters, it
accepts the input, produces its complete output of length + 2 lines, and
exits with status 0; no input is rejected. -/
theorem C9_no_error_path (argv : List String) :
    mainExit argv = 0 ∧
    (outLines argv).length = argv.length + 2 ∧
    mainStdout argv = joinAll ((outLines argv).map (fun l => l ++ "\n")) :=
  ⟨rfl, by simp [outLines], mainStdout_eq_joinAll argv⟩

/-- C10: when the argument sequence is empty (length 0), the program still
behaves totally: the output is exactly the greeting line and the count line
"Received 0 arguments:", with no echo lines, and the exit status is 0. -/
theorem C10_empty_sequence :
    outLines ([] : List String) = ["Hello from C executable!", "Received 0 arguments:"] ∧
    mainStdout ([] : List String) = "Hello from C executable!\nReceived 0 arguments:\n" ∧
    mainExit ([] : List String) = 0 :=
  ⟨rfl, rfl, rfl⟩

/-- Witness for C2 at a concrete input. -/
theorem C2_echo_line_faithful_witness :
    1 < (["p", "hi"] : List String).length ∧
    ((outLines ["p", "hi"]).getD (1 + 2) "" =
        "  argv[" ++ toString 1 ++ "]: " ++ (["p", "hi"].getD 1 "") ∧
      mainStdout ["p", "hi"] = joinAll ((outLines ["p", "hi"]).map (fun l => l ++ "\n"))) :=
  ⟨by decide, C2_echo_line_faithful ["p", "hi"] 1 (by decide)⟩

/-- Witness for C3 at a concrete input. -/
theorem C3_line_count_witness :
    1 ≤ (["prog"] : List String).length ∧
    ((outLines ["prog"]).length = (["prog"] : List String).length + 2 ∧
      ((outLines ["prog"]).drop 2).length = (["prog"] : List String).length ∧
      mainStdout ["prog"] = joinAll ((outLines ["prog"]).map (fun l => l ++ "\n"))) :=
  ⟨by decide, C3_line_count ["prog"] (by decide)⟩

/-- Witness for C8 at a concrete input. -/
theorem C8_deterministic_witness :
    (["prog", "x"] : List String) = ["prog", "x"] ∧
    (mainStdout ["prog", "x"] = mainStdout ["prog", "x"] ∧
      mainExit ["prog", "x"] = mainExit ["prog", "x"]) :=
  ⟨rfl, C8_deterministic ["prog", "x"] ["prog", "x"] rfl⟩
